import Mathlib

/-!
Shallow embedding of `src/lcmaps_pilot_sub_proxy_utils.c` (lcmaps-plugins-pilot-sub-proxy).

The OpenSSL and POSIX layers are modelled as explicit oracles and an explicit
process state:

* X.509 certificates are opaque records carrying exactly what the code
  inspects (optional public key, extension list with numeric-text OIDs and the
  result of the proxy-cert-info d2i decode).
* `X509_verify` and `PEM_X509_INFO_read_bio` are oracle parameters.
* The process identity (real/effective/saved uid and gid) follows the POSIX
  rules for `seteuid`/`setegid`: a change is permitted when the effective uid
  is the superuser or the requested id equals the real, effective or saved id.
* The file system side of `read_proxy` (open, fstat, read, malloc/realloc,
  lseek, flock/fcntl outcomes) is an environment record; `fstat` and `read`
  results are indexed by call number so that concurrent modification scenarios
  can be expressed.  Closing a descriptor releases the advisory locks held
  through it, as POSIX guarantees.
-/

namespace PilotSubProxy

/-! ## OID constants (lcmaps_pilot_sub_proxy_utils.c lines 54-55) -/

/-- OID for RFC3820 proxy certificates (`OID_RFC_PROXY`). -/
def OID_RFC_PROXY : String := "1.3.6.1.5.5.7.1.14"

/-- OID marking an RFC limited proxy policy (`OID_LIMITED_PROXY`). -/
def OID_LIMITED_PROXY : String := "1.3.6.1.4.1.3536.1.1.1.9"

/-! ## Certificate model -/

/-- Abstract public key, as extracted by `X509_get_pubkey`. -/
structure PubKey where
  keyId : Nat
deriving DecidableEq, Repr

/-- The `proxyPolicy` member of a decoded `PROXY_CERT_INFO_EXTENSION`:
the code only reads its `policyLanguage` object, which we keep in the
numeric-dotted text form produced by `OBJ_obj2txt(..., 1)`. -/
structure ProxyPolicy where
  policyLanguage : Option String
deriving DecidableEq, Repr

/-- A decoded `PROXY_CERT_INFO_EXTENSION` value. -/
structure ProxyCertInfo where
  proxyPolicy : Option ProxyPolicy
deriving DecidableEq, Repr

/-- One X.509 extension: the OID of its object in numeric-dotted text form
(`none` when `X509_EXTENSION_get_object` yields NULL), and the result of
decoding its content as a `PROXY_CERT_INFO_EXTENSION` (`none` when the DER
content does not decode). -/
structure X509Ext where
  oid : Option String
  pciDecode : Option ProxyCertInfo
deriving DecidableEq, Repr

/-- An X.509 certificate as inspected by this plugin: an optional public key
and the ordered extension list. -/
structure X509Cert where
  pubkey : Option PubKey
  exts : List X509Ext
deriving DecidableEq, Repr

/-! ## psp_verify_proxy_signature (lines 231-262) -/

/-- Conceptual verdict of one verification step; the C code returns `-1` on
the three failure branches (distinguished by their log messages) and `0` on
success. -/
inductive TrustVerdict where
  | Verified
  | SignatureMismatch
  | MissingKey
  | MissingInput
deriving DecidableEq, Repr

/-- Embedding of `psp_verify_proxy_signature`.  `x509_verify` is the OpenSSL
`X509_verify` oracle (returns 1 exactly when the certificate's signature
verifies under the key).  Returns the verdict (identifying the exit branch)
together with the C return code. -/
def psp_verify_proxy_signature (x509_verify : X509Cert → PubKey → Int)
    (payload pilot : Option X509Cert) : TrustVerdict × Int :=
  match pilot, payload with
  | none, _ => (TrustVerdict.MissingInput, -1)
  | some _, none => (TrustVerdict.MissingInput, -1)
  | some pil, some pay =>
    match pil.pubkey with
    | none => (TrustVerdict.MissingKey, -1)
    | some pilot_key =>
      if x509_verify pay pilot_key = 1 then (TrustVerdict.Verified, 0)
      else (TrustVerdict.SignatureMismatch, -1)

/-! ## psp_proxy_is_rfc (lines 268-288) -/

/-- Embedding of `psp_proxy_is_rfc`: scan all extensions, skip those whose
object is NULL, and report whether one has the RFC proxy OID. -/
def psp_proxy_is_rfc (proxy : X509Cert) : Bool :=
  proxy.exts.any (fun ex => ex.oid == some OID_RFC_PROXY)

/-! ## psp_proxy_is_limited (lines 294-326) -/

/-- Model of `X509_get_ext_d2i(proxy, nid_of_RFC_PROXY, ...)`: find the first
extension whose object has the RFC proxy OID and return its decoded
`PROXY_CERT_INFO_EXTENSION` (`none` when the extension is absent or its
content does not decode). -/
def x509_get_ext_d2i_pci (proxy : X509Cert) : Option ProxyCertInfo :=
  match proxy.exts.find? (fun ex => ex.oid == some OID_RFC_PROXY) with
  | none => none
  | some ex => ex.pciDecode

/-- Embedding of `psp_proxy_is_limited`: decode the proxy-cert-info
extension; when present with a policy and a policy language, compare the
language OID against `OID_LIMITED_PROXY`; all absent/undecodable cases give
`false`. -/
def psp_proxy_is_limited (proxy : X509Cert) : Bool :=
  match x509_get_ext_d2i_pci proxy with
  | none => false
  | some pci =>
    match pci.proxyPolicy with
    | none => false
    | some pol =>
      match pol.policyLanguage with
      | none => false
      | some lang => lang == OID_LIMITED_PROXY

/-! ## pem_string_to_x509_chain (lines 427-479) -/

/-- The `while (sk_X509_INFO_num(sk))` loop of `pem_string_to_x509_chain`:
shift each `X509_INFO` off the front of the stack and push its certificate
(when present) onto the back of `mystack`. -/
def infoLoop : List (Option X509Cert) → List X509Cert → List X509Cert
  | [], acc => acc
  | none :: rest, acc => infoLoop rest acc
  | some c :: rest, acc => infoLoop rest (acc ++ [c])

/-- Embedding of `pem_string_to_x509_chain`.  `pemReadBio` is the
`PEM_X509_INFO_read_bio` oracle: for a given PEM text it yields `none` when
the read fails, else the list of `X509_INFO` entries, each with an optional
`x509` member.  `memOk` models the `sk_X509_new_null`/`BIO_new_mem_buf`
allocations.  Returns the C return code (0 success, -1 on NULL input or
allocation failure, 1 from the `err:` exit) paired with the produced chain. -/
def pem_string_to_x509_chain
    (pemReadBio : String → Option (List (Option X509Cert)))
    (memOk : Bool) (certstring : Option String) :
    Int × Option (List X509Cert) :=
  match certstring with
  | none => (-1, none)
  | some s =>
    if memOk = false then (-1, none)
    else
      match pemReadBio s with
      | none => (1, none)
      | some infos =>
        let mystack := infoLoop infos []
        if mystack.length = 0 then (1, none)
        else (0, some mystack)

/-! ## psp_get_fqans (lines 195-225) -/

/-- The two framework arguments consulted by `psp_get_fqans`, as returned by
`lcmaps_getArgValue`: the `nfqan` count and the `fqan_list` pointer. -/
structure FqanEnv where
  nfqanArg : Option Int
  fqanListArg : Option (List String)

/-- Outcome of `psp_get_fqans`: the return code and the final values of the
caller's `*nfqans` and `*fqans` out-parameters. -/
structure FqanOut where
  rc : Int
  nfqans : Int
  fqans : List String
deriving DecidableEq, Repr

/-- Embedding of `psp_get_fqans`.  `nfqans0`/`fqans0` are the values the
caller's variables hold before the call (the code writes them only on the
branches that do so). -/
def psp_get_fqans (env : FqanEnv) (nfqans0 : Int) (fqans0 : List String) :
    FqanOut :=
  match env.nfqanArg with
  | none => { rc := 0, nfqans := nfqans0, fqans := fqans0 }
  | some n =>
    if n > 0 then
      match env.fqanListArg with
      | none => { rc := 0, nfqans := n, fqans := fqans0 }
      | some l => { rc := 0, nfqans := n, fqans := l }
    else { rc := 0, nfqans := n, fqans := fqans0 }

/-! ## Process identity state and seteuid/setegid -/

/-- Process identity plus the descriptor/lock resources `read_proxy`
manipulates.  `svuid`/`svgid` are the POSIX saved set-user/group ids;
`fdOpen`/`lockHeld` track the proxy-file descriptor and the advisory lock
held through it. -/
structure ProcState where
  ruid : Nat
  euid : Nat
  svuid : Nat
  rgid : Nat
  egid : Nat
  svgid : Nat
  fdOpen : Bool
  lockHeld : Bool
deriving DecidableEq, Repr

/-- POSIX `seteuid`: permitted when the caller is effectively the superuser
or the requested uid equals the real, effective or saved uid; `none` models
the -1/EPERM failure (state unchanged). -/
def seteuid (s : ProcState) (x : Nat) : Option ProcState :=
  if s.euid = 0 ∨ x = s.ruid ∨ x = s.euid ∨ x = s.svuid then
    some { s with euid := x }
  else none

/-- POSIX `setegid`: permitted when the caller is effectively the superuser
or the requested gid equals the real, effective or saved gid. -/
def setegid (s : ProcState) (g : Nat) : Option ProcState :=
  if s.euid = 0 ∨ g = s.rgid ∨ g = s.egid ∨ g = s.svgid then
    some { s with egid := g }
  else none

/-! ## priv_drop (lines 485-508) -/

/-- Embedding of `priv_drop`: set the effective gid first (skipped when
already equal), then the effective uid (skipped when the target is 0 or
already equal); on a uid failure restore the gid best-effort and return the
failing code. -/
def priv_drop (s : ProcState) (unpriv_uid unpriv_gid : Nat) :
    Int × ProcState :=
  let euid := s.euid
  let egid := s.egid
  match (if unpriv_gid = egid then some s else setegid s unpriv_gid) with
  | none => (-1, s)
  | some s1 =>
    match (if unpriv_uid = 0 ∨ unpriv_uid = euid then some s1
           else seteuid s1 unpriv_uid) with
    | none => (-1, (setegid s1 egid).getD s1)
    | some s2 => (0, s2)

/-! ## raise_priv (lines 515-535) -/

/-- One set-id system call issued by `raise_priv`, recorded in order. -/
inductive IdCall where
  | setE (x : Nat)
  | setG (g : Nat)
deriving DecidableEq, Repr

/-- Embedding of `raise_priv`: when the saved effective uid is 0 restore the
effective uid first, then the gid; else when the real uid is 0 go through a
transient `seteuid(0)`, restore the gid, then the uid; else fail.  Also
returns the ordered list of set-id calls issued. -/
def raise_priv (s : ProcState) (euid : Nat) (egid : Nat) :
    Int × ProcState × List IdCall :=
  if euid = 0 then
    match seteuid s euid with
    | none => (-1, s, [IdCall.setE euid])
    | some s1 =>
      match setegid s1 egid with
      | none => (-1, s1, [IdCall.setE euid, IdCall.setG egid])
      | some s2 => (0, s2, [IdCall.setE euid, IdCall.setG egid])
  else if s.ruid = 0 then
    match seteuid s 0 with
    | none => (-1, s, [IdCall.setE 0])
    | some s1 =>
      match setegid s1 egid with
      | none => (-1, s1, [IdCall.setE 0, IdCall.setG egid])
      | some s2 =>
        match seteuid s2 euid with
        | none => (-1, s2, [IdCall.setE 0, IdCall.setG egid])
        | some s3 => (0, s3, [IdCall.setE 0, IdCall.setG egid, IdCall.setE euid])
  else (-1, s, [])

/-! ## filelock (lines 556-598) -/

/-- Locking-mechanism selection bits (`LCK_NOLOCK`, `LCK_FCNTL`,
`LCK_FLOCK`). -/
def LCK_NOLOCK : Nat := 1

/-- fcntl() locking bit. -/
def LCK_FCNTL : Nat := 2

/-- flock() locking bit. -/
def LCK_FLOCK : Nat := 4

/-- Lock action constants (`LCK_READ`, `LCK_WRITE`, `LCK_UNLOCK`). -/
def LCK_READ : Nat := 1

/-- Set exclusive write lock. -/
def LCK_WRITE : Nat := 2

/-- Unset lock. -/
def LCK_UNLOCK : Nat := 4

/-- Which locking primitive a call went through. -/
inductive LockMech where
  | flck
  | fcnt
deriving DecidableEq, Repr

/-- The decoded lock operation: shared, exclusive, or unlock. -/
inductive LockOp where
  | sh
  | ex
  | un
deriving DecidableEq, Repr

/-- The action-decoding switch shared by both branches of `filelock`
(`LCK_READ`/`LCK_WRITE`/`LCK_UNLOCK`; anything else falls into the `default`
case, an immediate -1). -/
def decodeAction (action : Nat) : Option LockOp :=
  if action = LCK_READ then some LockOp.sh
  else if action = LCK_WRITE then some LockOp.ex
  else if action = LCK_UNLOCK then some LockOp.un
  else none

/-- Embedding of `filelock` (non-Solaris build).  `flockRes`/`fcntlRes` are
the outcomes the OS would give to the `flock`/`fcntl` call of this
invocation.  Returns the C return code together with the ordered list of
lock system calls actually issued, each tagged with its success. -/
def filelock (flockRes fcntlRes : Bool) (lock_type action : Nat) :
    Int × List (LockMech × LockOp × Bool) :=
  if lock_type &&& LCK_NOLOCK ≠ 0 then (0, [])
  else
    match (if lock_type &&& LCK_FLOCK ≠ 0 then
             (decodeAction action).map
               (fun op => ((if flockRes then (0 : Int) else -1),
                           [(LockMech.flck, op, flockRes)]))
           else some ((0 : Int), ([] : List (LockMech × LockOp × Bool)))) with
    | none => (-1, [])
    | some (rc1, calls1) =>
      if lock_type &&& LCK_FCNTL ≠ 0 then
        match decodeAction action with
        | none => (-1, calls1)
        | some op =>
          let rc2 : Int := if fcntlRes then 0 else -1
          ((if rc1 ≠ 0 ∨ rc2 ≠ 0 then -1 else 0),
           calls1 ++ [(LockMech.fcnt, op, fcntlRes)])
      else ((if rc1 ≠ 0 then -1 else 0), calls1)

/-! ## read_proxy (lines 618-725) -/

/-- Result of one `fstat`: the fields `read_proxy` inspects. -/
structure Stat where
  st_uid : Nat
  st_mode : Nat
  st_size : Nat
  st_mtime : Int
  st_ctime : Int
deriving DecidableEq, Repr

/-- Group-read permission bit (octal 040). -/
def S_IRGRP : Nat := 32

/-- Group-write permission bit (octal 020). -/
def S_IWGRP : Nat := 16

/-- Other-read permission bit (octal 004). -/
def S_IROTH : Nat := 4

/-- Other-write permission bit (octal 002). -/
def S_IWOTH : Nat := 2

/-- The safety check of `read_proxy` lines 657-659: the file must be owned
by the real uid and carry no group/other read/write bits. -/
def badPermStat (uid : Nat) (st : Stat) : Bool :=
  st.st_uid != uid || st.st_mode &&& S_IRGRP != 0 || st.st_mode &&& S_IWGRP != 0
    || st.st_mode &&& S_IROTH != 0 || st.st_mode &&& S_IWOTH != 0

/-- The consistency comparison of `read_proxy` lines 685-687: size, mtime
and ctime all unchanged. -/
def sameStat (a b : Stat) : Bool :=
  a.st_size == b.st_size && a.st_mtime == b.st_mtime && a.st_ctime == b.st_ctime

/-- Environment for one `read_proxy` call: outcomes of `open`, of the
`flock`/`fcntl` calls for the acquisition and the release, the `fstat`
results by call index (index 0 is the pre-loop stat, index `k+1` the
re-snapshot after read attempt `k`; `none` is a stat failure), the bytes the
file yields to read attempt `k`, and the allocation/seek outcomes. -/
structure RPEnv where
  openOk : Bool
  flockAcq : Bool
  fcntlAcq : Bool
  flockRel : Bool
  fcntlRel : Bool
  stats : Nat → Option Stat
  reads : Nat → List Nat
  mallocOk : Bool
  reallocOk : Nat → Bool
  seekOk : Nat → Bool

/-- Outcome of the reading retry loop: the resulting `rc`, the last read's
return value (`size`) and data, and how many read attempts were made. -/
structure LoopOut where
  rc : Int
  size : Nat
  data : List Nat
  readCount : Nat
deriving DecidableEq, Repr

/-- `tries`, the retry budget of `read_proxy` (line 619). -/
def tries : Nat := 10

/-- The reading retry loop of `read_proxy` (lines 676-710).  `fuel` is the
number of iterations left (`tries - i`), `i` the iteration counter used to
index the environment, `basis` the snapshot the current read is checked
against (`*sptr1`).  A read attempt returns at most the `basis` size, as the
`read(fd, buf, sptr1->st_size)` call does. -/
def readLoop (env : RPEnv) (fuel i : Nat) (basis : Stat) : LoopOut :=
  match fuel with
  | 0 => { rc := 0, size := 0, data := [], readCount := i }
  | Nat.succ fuel1 =>
    let data := (env.reads i).take basis.st_size
    let size := data.length
    match env.stats (i + 1) with
    | none => { rc := -1, size := size, data := data, readCount := i + 1 }
    | some st2 =>
      if sameStat st2 basis then
        { rc := (if size = basis.st_size then 0 else -1),
          size := size, data := data, readCount := i + 1 }
      else if fuel1 ≠ 0 then
        if env.reallocOk i = false then
          { rc := -4, size := size, data := data, readCount := i + 1 }
        else if env.seekOk i = false then
          { rc := -1, size := size, data := data, readCount := i + 1 }
        else readLoop env fuel1 (i + 1) st2
      else { rc := -5, size := size, data := data, readCount := i + 1 }

/-- Closing the descriptor: POSIX releases the advisory locks held through
it (both the process's fcntl record locks on the file and the flock lock of
the open file description). -/
def closefd (s : ProcState) : ProcState :=
  { s with fdOpen := false, lockHeld := false }

/-- Was any lock actually acquired by this list of lock calls? -/
def anyAcquired (calls : List (LockMech × LockOp × Bool)) : Bool :=
  calls.any (fun c => c.2.2 && !(c.2.1 == LockOp.un))

/-- Overall result of `read_proxy`: the return code, the produced buffer (as
the logical byte content placed in `*proxy`), the number of `read` attempts
made, and the final process/resource state. -/
structure RPResult where
  rc : Int
  proxy : Option (List Nat)
  readCount : Nat
  final : ProcState

/-- Embedding of `read_proxy`.  Follows the source line by line: conditional
privilege drop, open, lock, stat, ownership/mode check, malloc, retry loop,
then unlock, close and privilege raise on the common exit, with the early
error returns each doing their own cleanup. -/
def read_proxy (env : RPEnv) (s0 : ProcState) (lock_type : Nat) : RPResult :=
  let uid := s0.ruid
  let euid := s0.euid
  let gid := s0.rgid
  let egid := s0.egid
  let pd := if euid = 0 ∧ uid ≠ 0 then priv_drop s0 uid gid else ((0 : Int), s0)
  if pd.1 ≠ 0 then
    { rc := -2, proxy := none, readCount := 0, final := pd.2 }
  else
    let s1 := pd.2
    if env.openOk = false then
      { rc := -1, proxy := none, readCount := 0,
        final := (raise_priv s1 euid egid).2.1 }
    else
      let s2 := { s1 with fdOpen := true }
      let lk := filelock env.flockAcq env.fcntlAcq lock_type LCK_READ
      let s3 := { s2 with lockHeld := s2.lockHeld || anyAcquired lk.2 }
      if lk.1 ≠ 0 then
        { rc := -6, proxy := none, readCount := 0,
          final := (raise_priv (closefd s3) euid egid).2.1 }
      else
        match env.stats 0 with
        | none =>
          { rc := -1, proxy := none, readCount := 0,
            final := (raise_priv (closefd s3) euid egid).2.1 }
        | some st1 =>
          if badPermStat uid st1 then
            { rc := -3, proxy := none, readCount := 0,
              final := (raise_priv (closefd s3) euid egid).2.1 }
          else if env.mallocOk = false then
            { rc := -4, proxy := none, readCount := 0,
              final := (raise_priv (closefd s3) euid egid).2.1 }
          else
            let out := readLoop env tries 0 st1
            let ul := filelock env.flockRel env.fcntlRel lock_type LCK_UNLOCK
            let s4 := if ul.1 = 0 then { s3 with lockHeld := false } else s3
            let s5 := (raise_priv (closefd s4) euid egid).2.1
            if out.rc ≠ 0 then
              { rc := out.rc, proxy := none, readCount := out.readCount,
                final := s5 }
            else
              { rc := 0, proxy := some out.data, readCount := out.readCount,
                final := s5 }

/-! ## Concrete fixtures used by the witness theorems -/

/-- A certificate with no key and no extensions. -/
def wCertPlain : X509Cert := { pubkey := none, exts := [] }

/-- A certificate carrying a public key. -/
def wCertKeyed : X509Cert := { pubkey := some { keyId := 1 }, exts := [] }

/-- An RFC limited proxy certificate: proxy-info extension decoding to the
limited-proxy policy language. -/
def wCertLimited : X509Cert :=
  { pubkey := none,
    exts := [{ oid := some OID_RFC_PROXY,
               pciDecode := some (ProxyCertInfo.mk
                 (some (ProxyPolicy.mk (some OID_LIMITED_PROXY)))) }] }

/-- An effective-superuser / real-nonroot identity (the state right after
exec of a setuid-root binary: saved ids equal the effective ids). -/
def wRootState : ProcState :=
  { ruid := 1000, euid := 0, svuid := 0,
    rgid := 1000, egid := 50, svgid := 50,
    fdOpen := false, lockHeld := false }

/-- A plain non-root identity with no descriptor or lock held. -/
def wState : ProcState :=
  { ruid := 1000, euid := 1000, svuid := 1000,
    rgid := 1000, egid := 1000, svgid := 1000,
    fdOpen := false, lockHeld := false }

/-- Environment whose file is owned by uid 1000 but group-readable. -/
def wEnvPerm : RPEnv :=
  { openOk := true, flockAcq := true, fcntlAcq := true,
    flockRel := true, fcntlRel := true,
    stats := fun _ => some { st_uid := 1000, st_mode := 32, st_size := 0,
                             st_mtime := 0, st_ctime := 0 },
    reads := fun _ => [], mallocOk := true,
    reallocOk := fun _ => true, seekOk := fun _ => true }

/-- Stat sequence whose size grows at every snapshot (a file under
permanent concurrent modification). -/
def wStatF (k : Nat) : Stat :=
  { st_uid := 1000, st_mode := 0, st_size := k, st_mtime := 0, st_ctime := 0 }

/-- Environment whose file metadata (the size) changes at every snapshot. -/
def wEnvChanging : RPEnv :=
  { openOk := true, flockAcq := true, fcntlAcq := true,
    flockRel := true, fcntlRel := true,
    stats := fun k => some (wStatF k),
    reads := fun _ => [], mallocOk := true,
    reallocOk := fun _ => true, seekOk := fun _ => true }

/-- Environment whose file changes exactly once (between snapshot 0 and
snapshot 1) and is stable from snapshot 1 on, with final content `[7,8,9]`. -/
def wEnvOnce : RPEnv :=
  { openOk := true, flockAcq := true, fcntlAcq := true,
    flockRel := true, fcntlRel := true,
    stats := fun k =>
      if k = 0 then
        some { st_uid := 1000, st_mode := 0, st_size := 2,
               st_mtime := 0, st_ctime := 0 }
      else
        some { st_uid := 1000, st_mode := 0, st_size := 3,
               st_mtime := 5, st_ctime := 5 },
    reads := fun _ => [7, 8, 9], mallocOk := true,
    reallocOk := fun _ => true, seekOk := fun _ => true }

/-! # Helper lemmas -/

/-- The shift-and-push loop of `pem_string_to_x509_chain` appends, in source
order, exactly the infos that carry a certificate. -/
theorem infoLoop_eq_filterMap (l : List (Option X509Cert))
    (acc : List X509Cert) : infoLoop l acc = acc ++ l.filterMap id := by
  induction l generalizing acc with
  | nil => simp [infoLoop]
  | cons x rest ih =>
    cases x with
    | none => simp [infoLoop, ih]
    | some c => simp [infoLoop, ih]

/-- Under the POSIX model, the drop from effective root to the real ids
performed by `read_proxy` always succeeds: the gid change is to the real
gid, the uid change is done while still effectively root. -/
theorem priv_drop_root (s : ProcState) (h0 : s.euid = 0) (h1 : s.ruid ≠ 0) :
    priv_drop s s.ruid s.rgid =
      (0, { s with euid := s.ruid, egid := s.rgid }) := by
  rcases s with ⟨ru, eu, su, rg, eg, sg, fo, lh⟩
  dsimp only at h0 h1
  subst h0
  by_cases hg : rg = eg <;>
    simp [priv_drop, setegid, seteuid, hg, h1]

/-- `seteuid` succeeds exactly when its POSIX permission condition holds. -/
theorem seteuid_ok (s : ProcState) (x : Nat)
    (h : s.euid = 0 ∨ x = s.ruid ∨ x = s.euid ∨ x = s.svuid) :
    seteuid s x = some { s with euid := x } := by
  unfold seteuid
  exact if_pos h

/-- `setegid` succeeds exactly when its POSIX permission condition holds. -/
theorem setegid_ok (s : ProcState) (g : Nat)
    (h : s.euid = 0 ∨ g = s.rgid ∨ g = s.egid ∨ g = s.svgid) :
    setegid s g = some { s with egid := g } := by
  unfold setegid
  exact if_pos h

/-- `raise_priv` leaves the process at effective ids `e`/`g` whenever the
state already has them (the no-drop case, with either a successful restore
or the expected non-root failure) or the target effective uid is 0 and the
saved set-uid is 0 (the dropped case).  All other state fields are
untouched. -/
theorem raise_priv_restores (t : ProcState) (e g : Nat)
    (h : (t.euid = e ∧ t.egid = g) ∨ (e = 0 ∧ t.svuid = 0)) :
    (raise_priv t e g).2.1.euid = e ∧ (raise_priv t e g).2.1.egid = g ∧
    (raise_priv t e g).2.1.ruid = t.ruid ∧
    (raise_priv t e g).2.1.rgid = t.rgid ∧
    (raise_priv t e g).2.1.svuid = t.svuid ∧
    (raise_priv t e g).2.1.svgid = t.svgid ∧
    (raise_priv t e g).2.1.fdOpen = t.fdOpen ∧
    (raise_priv t e g).2.1.lockHeld = t.lockHeld := by
  by_cases he : e = 0
  · subst he
    have hcond : t.euid = 0 ∨ (0 : Nat) = t.ruid ∨ (0 : Nat) = t.euid ∨
        (0 : Nat) = t.svuid := by
      rcases h with ⟨hh, _⟩ | ⟨_, hh⟩
      · exact Or.inl hh
      · exact Or.inr (Or.inr (Or.inr hh.symm))
    unfold raise_priv
    rw [if_pos rfl, seteuid_ok t 0 hcond]
    dsimp only
    rw [setegid_ok _ g (Or.inl rfl)]
    dsimp only
    exact ⟨rfl, rfl, rfl, rfl, rfl, rfl, rfl, rfl⟩
  · obtain ⟨heu, heg⟩ : t.euid = e ∧ t.egid = g := by
      rcases h with hh | ⟨hh, _⟩
      · exact hh
      · exact absurd hh he
    unfold raise_priv
    rw [if_neg he]
    by_cases hr : t.ruid = 0
    · rw [if_pos hr, seteuid_ok t 0 (Or.inr (Or.inl hr.symm))]
      dsimp only
      rw [setegid_ok _ g (Or.inl rfl)]
      dsimp only
      rw [seteuid_ok _ e (Or.inl rfl)]
      dsimp only
      exact ⟨rfl, rfl, rfl, rfl, rfl, rfl, rfl, rfl⟩
    · rw [if_neg hr]
      dsimp only
      exact ⟨heu, heg, rfl, rfl, rfl, rfl, rfl, rfl⟩

/-- The conditional privilege drop at the top of `read_proxy` never yields a
nonzero code under the POSIX model. -/
theorem read_proxy_pd_ok (s0 : ProcState) :
    (if s0.euid = 0 ∧ s0.ruid ≠ 0 then priv_drop s0 s0.ruid s0.rgid
     else ((0 : Int), s0)).1 = 0 := by
  by_cases hdrop : s0.euid = 0 ∧ s0.ruid ≠ 0
  · rw [if_pos hdrop, priv_drop_root s0 hdrop.1 hdrop.2]
  · rw [if_neg hdrop]

/-- One retry-loop iteration in which the re-snapshot differs from the
basis: with realloc and seek succeeding, the loop either exhausts (last
iteration, rc -5) or recurses on the new snapshot. -/
theorem readLoop_succ_changed (env : RPEnv) (fuel1 i : Nat)
    (basis st2 : Stat)
    (hstat : env.stats (i + 1) = some st2)
    (hch : sameStat st2 basis = false)
    (hra : env.reallocOk i = true) (hsk : env.seekOk i = true) :
    readLoop env (fuel1 + 1) i basis =
      (if fuel1 = 0 then
        { rc := -5, size := ((env.reads i).take basis.st_size).length,
          data := (env.reads i).take basis.st_size, readCount := i + 1 }
       else readLoop env fuel1 (i + 1) st2) := by
  by_cases hf : fuel1 = 0 <;>
    simp [readLoop, hstat, hch, hra, hsk, hf]

/-- One retry-loop iteration in which the re-snapshot matches the basis:
the read is accepted, succeeding exactly when the read returned the basis
size. -/
theorem readLoop_succ_same (env : RPEnv) (fuel1 i : Nat) (basis st2 : Stat)
    (hstat : env.stats (i + 1) = some st2)
    (hsame : sameStat st2 basis = true) :
    readLoop env (fuel1 + 1) i basis =
      { rc := (if ((env.reads i).take basis.st_size).length = basis.st_size
               then 0 else -1),
        size := ((env.reads i).take basis.st_size).length,
        data := (env.reads i).take basis.st_size, readCount := i + 1 } := by
  simp [readLoop, hstat, hsame]

/-- When every re-snapshot differs from its basis and reallocation and seek
always succeed, the retry loop consumes all its fuel, makes exactly `fuel`
read attempts, and ends with rc -5. -/
theorem readLoop_exhausts (env : RPEnv) (f : Nat → Stat)
    (hstats : ∀ k, env.stats k = some (f k))
    (hch : ∀ k, sameStat (f (k + 1)) (f k) = false)
    (hra : ∀ k, env.reallocOk k = true) (hsk : ∀ k, env.seekOk k = true) :
    ∀ fuel i, 1 ≤ fuel →
      (readLoop env fuel i (f i)).rc = -5 ∧
      (readLoop env fuel i (f i)).readCount = i + fuel := by
  intro fuel
  induction fuel with
  | zero => intro i h; exact absurd h (by omega)
  | succ fuel1 ih =>
    intro i _
    rw [readLoop_succ_changed env fuel1 i (f i) (f (i + 1)) (hstats (i + 1))
      (hch i) (hra i) (hsk i)]
    by_cases hf : fuel1 = 0
    · subst hf
      simp
    · rw [if_neg hf]
      obtain ⟨h1, h2⟩ := ih (i + 1) (by omega)
      exact ⟨h1, by omega⟩

/-- When the privilege drop, open, lock, initial stat, permission check and
allocation all go through, `read_proxy`'s outcome is exactly the retry
loop's outcome (with the buffer delivered only on success). -/
theorem read_proxy_runs_loop (env : RPEnv) (s0 : ProcState)
    (lock_type : Nat) (st1 : Stat)
    (hopen : env.openOk = true)
    (hlock : (filelock env.flockAcq env.fcntlAcq lock_type LCK_READ).1 = 0)
    (hstat : env.stats 0 = some st1)
    (hgood : badPermStat s0.ruid st1 = false)
    (hmal : env.mallocOk = true) :
    (read_proxy env s0 lock_type).rc = (readLoop env tries 0 st1).rc ∧
    (read_proxy env s0 lock_type).readCount =
      (readLoop env tries 0 st1).readCount ∧
    (read_proxy env s0 lock_type).proxy =
      (if (readLoop env tries 0 st1).rc = 0
       then some (readLoop env tries 0 st1).data else none) := by
  have hpd := read_proxy_pd_ok s0
  simp only [read_proxy, hpd, hopen, hstat, hgood, hlock, hmal]
  by_cases hrc : (readLoop env tries 0 st1).rc = 0 <;> simp [hrc]

/-! # Claim theorems -/

/-- C10: for every `lock_type` value with the no-lock bit set, `filelock`
returns success immediately and issues no lock or unlock system call at all,
even when the fcntl-lock or flock bits are also set in the same value. -/
theorem filelock_nolock_disables_all (flockRes fcntlRes : Bool)
    (lock_type action : Nat) (h : lock_type &&& LCK_NOLOCK ≠ 0) :
    filelock flockRes fcntlRes lock_type action = (0, []) := by
  simp [filelock, h]

/-- Witness for C10: at `lock_type = 7` (no-lock, fcntl and flock bits all
set) and a read action, `filelock` succeeds with no lock call. -/
theorem filelock_nolock_disables_all_witness :
    ((7 : Nat) &&& LCK_NOLOCK ≠ 0) ∧
      filelock true true 7 LCK_READ = (0, []) :=
  ⟨by decide, filelock_nolock_disables_all true true 7 LCK_READ (by decide)⟩

/-- C2: `psp_verify_proxy_signature` takes the missing-input branch exactly
when either certificate is absent, the missing-key branch exactly when both
are present but the pilot's public key cannot be extracted, the mismatch
branch exactly when the payload's signature does not verify under the
pilot's key, and returns success (0) exactly when both inputs are present
and the signature verifies under the pilot's public key. -/
theorem psp_verify_proxy_signature_verdicts
    (v : X509Cert → PubKey → Int) (payload pilot : Option X509Cert) :
    ((psp_verify_proxy_signature v payload pilot).1 =
        TrustVerdict.MissingInput ↔ payload = none ∨ pilot = none) ∧
    ((psp_verify_proxy_signature v payload pilot).1 =
        TrustVerdict.MissingKey ↔
      ∃ pay pil, payload = some pay ∧ pilot = some pil ∧ pil.pubkey = none) ∧
    ((psp_verify_proxy_signature v payload pilot).1 =
        TrustVerdict.SignatureMismatch ↔
      ∃ pay pil k, payload = some pay ∧ pilot = some pil ∧
        pil.pubkey = some k ∧ v pay k ≠ 1) ∧
    (psp_verify_proxy_signature v payload pilot =
        (TrustVerdict.Verified, 0) ↔
      ∃ pay pil k, payload = some pay ∧ pilot = some pil ∧
        pil.pubkey = some k ∧ v pay k = 1) := by
  rcases payload with _ | pay <;> rcases pilot with _ | pil <;>
    simp [psp_verify_proxy_signature]
  rcases hk : pil.pubkey with _ | k <;> simp [hk]
  by_cases hv : v pay k = 1 <;> simp [hv]

/-- C9: when the FQAN count argument is missing, or present but not
positive, `psp_get_fqans` returns success and a caller that started from a
zero count observes no attributes (count ≤ 0, list untouched); moreover the
operation returns success on every input, so absent FQAN data is never
fatal. -/
theorem psp_get_fqans_absence_nonfatal (env : FqanEnv) (fqans0 : List String)
    (h : env.nfqanArg = none ∨ ∃ n, env.nfqanArg = some n ∧ ¬ n > 0) :
    (psp_get_fqans env 0 fqans0).rc = 0 ∧
    (psp_get_fqans env 0 fqans0).nfqans ≤ 0 ∧
    (psp_get_fqans env 0 fqans0).fqans = fqans0 ∧
    (∀ (e : FqanEnv) (n0 : Int) (f0 : List String),
        (psp_get_fqans e n0 f0).rc = 0) := by
  have hall : ∀ (e : FqanEnv) (n0 : Int) (f0 : List String),
      (psp_get_fqans e n0 f0).rc = 0 := by
    intro e n0 f0
    unfold psp_get_fqans
    rcases e.nfqanArg with _ | n
    · rfl
    · dsimp only
      split
      · rcases e.fqanListArg with _ | l <;> rfl
      · rfl
  refine ⟨hall env 0 fqans0, ?_, ?_, hall⟩
  · rcases h with h | ⟨n, hn, hle⟩
    · simp [psp_get_fqans, h]
    · simp [psp_get_fqans, hn, hle]
      omega
  · rcases h with h | ⟨n, hn, hle⟩
    · simp [psp_get_fqans, h]
    · simp [psp_get_fqans, hn, hle]

/-- Witness for C9: with both framework arguments absent and a caller-side
count of 0, the call succeeds and no attributes are observed. -/
theorem psp_get_fqans_absence_nonfatal_witness :
    ((FqanEnv.mk none none).nfqanArg = none ∨
        ∃ n, (FqanEnv.mk none none).nfqanArg = some n ∧ ¬ n > 0) ∧
      ((psp_get_fqans (FqanEnv.mk none none) 0 []).rc = 0 ∧
       (psp_get_fqans (FqanEnv.mk none none) 0 []).nfqans ≤ 0 ∧
       (psp_get_fqans (FqanEnv.mk none none) 0 []).fqans = [] ∧
       (∀ (e : FqanEnv) (n0 : Int) (f0 : List String),
          (psp_get_fqans e n0 f0).rc = 0)) :=
  ⟨Or.inl rfl,
   psp_get_fqans_absence_nonfatal (FqanEnv.mk none none) [] (Or.inl rfl)⟩

/-- C7: `psp_proxy_is_limited` is true exactly when the proxy-cert-info
extension found under the RFC-proxy OID decodes to a policy whose policy
language equals the limited-proxy OID; truth of `isLimited` forces
`psp_proxy_is_rfc` to be true on the same certificate; and an absent or
undecodable extension yields false rather than an error. -/
theorem psp_proxy_is_limited_spec (c : X509Cert) :
    (psp_proxy_is_limited c = true ↔
      ∃ pci pol, x509_get_ext_d2i_pci c = some pci ∧
        pci.proxyPolicy = some pol ∧
        pol.policyLanguage = some OID_LIMITED_PROXY) ∧
    (psp_proxy_is_limited c = true → psp_proxy_is_rfc c = true) ∧
    (x509_get_ext_d2i_pci c = none → psp_proxy_is_limited c = false) := by
  refine ⟨?_, ?_, ?_⟩
  · unfold psp_proxy_is_limited
    rcases hd : x509_get_ext_d2i_pci c with _ | pci <;> simp [hd]
    rcases hp : pci.proxyPolicy with _ | pol <;> simp [hp]
    rcases hl : pol.policyLanguage with _ | lang <;> simp [hl]
  · intro hlim
    unfold psp_proxy_is_limited x509_get_ext_d2i_pci at hlim
    rcases hf : c.exts.find? (fun ex => ex.oid == some OID_RFC_PROXY)
      with _ | ex
    · rw [hf] at hlim
      simp at hlim
    · have hmem := List.mem_of_find?_eq_some hf
      have hprop := List.find?_some hf
      simp only [psp_proxy_is_rfc, List.any_eq_true]
      exact ⟨ex, hmem, hprop⟩
  · intro hd
    unfold psp_proxy_is_limited
    rw [hd]

/-- Witness for C7: the concrete limited certificate is limited, hence also
an RFC proxy. -/
theorem psp_proxy_is_limited_spec_witness :
    psp_proxy_is_limited wCertLimited = true ∧
      psp_proxy_is_rfc wCertLimited = true :=
  ⟨by decide, (psp_proxy_is_limited_spec wCertLimited).2.1 (by decide)⟩

/-- C6: `pem_string_to_x509_chain` fails on a NULL input string; when the
PEM reader fails, or yields no decodable certificate, the parse fails;
when at least one block decodes, the result is exactly the decodable
certificates in source order (blocks without a certificate skipped); and a
successful parse never yields an empty chain. -/
theorem pem_string_to_x509_chain_spec
    (rd : String → Option (List (Option X509Cert)))
    (mem : Bool) (inp : Option String) (hmem : mem = true) :
    (inp = none → pem_string_to_x509_chain rd mem inp = (-1, none)) ∧
    (∀ s, inp = some s → rd s = none →
        (pem_string_to_x509_chain rd mem inp).2 = none) ∧
    (∀ s infos, inp = some s → rd s = some infos →
        infos.filterMap id = [] →
        (pem_string_to_x509_chain rd mem inp).2 = none) ∧
    (∀ s infos, inp = some s → rd s = some infos →
        infos.filterMap id ≠ [] →
        pem_string_to_x509_chain rd mem inp =
          (0, some (infos.filterMap id))) ∧
    (pem_string_to_x509_chain rd mem inp).2 ≠ some [] := by
  subst hmem
  refine ⟨?_, ?_, ?_, ?_, ?_⟩
  · rintro rfl
    rfl
  · rintro s rfl hrd
    simp [pem_string_to_x509_chain, hrd]
  · rintro s infos rfl hrd hemp
    simp [pem_string_to_x509_chain, hrd, infoLoop_eq_filterMap, hemp]
  · rintro s infos rfl hrd hne
    have hlen : ¬ (infos.filterMap id).length = 0 := by
      simpa [List.length_eq_zero] using hne
    simp [pem_string_to_x509_chain, hrd, infoLoop_eq_filterMap, hlen]
  · rcases inp with _ | s
    · simp [pem_string_to_x509_chain]
    · rcases hrd : rd s with _ | infos
      · simp [pem_string_to_x509_chain, hrd]
      · simp only [pem_string_to_x509_chain, hrd, infoLoop_eq_filterMap,
          List.nil_append]
        split
        · simp
        · split
          · simp
          · rename_i hlen2
            simp only [ne_eq, Option.some.injEq]
            intro hfm
            rw [List.length_eq_zero] at hlen2
            exact hlen2 hfm

/-- Witness for C6: a three-block PEM text whose middle block carries no
certificate parses to exactly the two decodable certificates in order. -/
theorem pem_string_to_x509_chain_spec_witness :
    (true = true) ∧
      ([some wCertPlain, none, some wCertKeyed].filterMap id ≠
        ([] : List X509Cert)) ∧
      pem_string_to_x509_chain
          (fun _ => some [some wCertPlain, none, some wCertKeyed]) true
          (some "pem") = (0, some [wCertPlain, wCertKeyed]) := by
  refine ⟨rfl, by simp, ?_⟩
  have h := (pem_string_to_x509_chain_spec
      (fun _ => some [some wCertPlain, none, some wCertKeyed]) true
      (some "pem") rfl).2.2.2.1 "pem" [some wCertPlain, none, some wCertKeyed]
      rfl rfl (by simp)
  simpa using h

/-- C8: from an effective-superuser / real-nonroot starting identity,
`priv_drop` to the real ids followed by `raise_priv` with the saved
effective ids succeeds and restores exactly the original effective uid and
gid, issuing `seteuid` before `setegid` (the saved effective user is the
superuser); for any state, when the saved effective user is not the
superuser but the real user is, `raise_priv` goes through a transient
superuser effective uid (`seteuid 0`, then `setegid`, then `seteuid` to the
saved value); and when neither is the superuser, `raise_priv` fails. -/
theorem priv_drop_raise_roundtrip (s : ProcState)
    (h0 : s.euid = 0) (h1 : s.ruid ≠ 0) (h2 : s.svuid = 0) :
    ((priv_drop s s.ruid s.rgid).1 = 0 ∧
     (raise_priv (priv_drop s s.ruid s.rgid).2 s.euid s.egid).1 = 0 ∧
     (raise_priv (priv_drop s s.ruid s.rgid).2 s.euid s.egid).2.1.euid
       = s.euid ∧
     (raise_priv (priv_drop s s.ruid s.rgid).2 s.euid s.egid).2.1.egid
       = s.egid ∧
     (raise_priv (priv_drop s s.ruid s.rgid).2 s.euid s.egid).2.2 =
       [IdCall.setE s.euid, IdCall.setG s.egid]) ∧
    (∀ (t : ProcState) (e g : Nat), e ≠ 0 → t.ruid = 0 →
       raise_priv t e g =
         (0, { t with euid := e, egid := g },
          [IdCall.setE 0, IdCall.setG g, IdCall.setE e])) ∧
    (∀ (t : ProcState) (e g : Nat), e ≠ 0 → t.ruid ≠ 0 →
       raise_priv t e g = (-1, t, [])) := by
  refine ⟨?_, ?_, ?_⟩
  · rcases s with ⟨ru, eu, su, rg, eg, sg, fo, lh⟩
    dsimp only at h0 h1 h2
    subst h0
    subst h2
    have h1s : ¬ ((0 : Nat) = ru) := fun h => h1 h.symm
    by_cases hg : rg = eg <;>
      simp [priv_drop, setegid, seteuid, raise_priv, hg, h1, h1s]
  · intro t e g he hr
    rcases t with ⟨ru, eu, su, rg, eg, sg, fo, lh⟩
    dsimp only at hr
    subst hr
    simp [raise_priv, seteuid, setegid, he]
  · intro t e g he hr
    simp [raise_priv, he, hr]

/-- Witness for C8: the round trip at the concrete identity
ruid 1000 / euid 0 / egid 50. -/
theorem priv_drop_raise_roundtrip_witness :
    wRootState.euid = 0 ∧ wRootState.ruid ≠ 0 ∧ wRootState.svuid = 0 ∧
    (((priv_drop wRootState wRootState.ruid wRootState.rgid).1 = 0 ∧
      (raise_priv (priv_drop wRootState wRootState.ruid wRootState.rgid).2
          wRootState.euid wRootState.egid).1 = 0 ∧
      (raise_priv (priv_drop wRootState wRootState.ruid wRootState.rgid).2
          wRootState.euid wRootState.egid).2.1.euid = wRootState.euid ∧
      (raise_priv (priv_drop wRootState wRootState.ruid wRootState.rgid).2
          wRootState.euid wRootState.egid).2.1.egid = wRootState.egid ∧
      (raise_priv (priv_drop wRootState wRootState.ruid wRootState.rgid).2
          wRootState.euid wRootState.egid).2.2 =
        [IdCall.setE wRootState.euid, IdCall.setG wRootState.egid]) ∧
     (∀ (t : ProcState) (e g : Nat), e ≠ 0 → t.ruid = 0 →
        raise_priv t e g =
          (0, { t with euid := e, egid := g },
           [IdCall.setE 0, IdCall.setG g, IdCall.setE e])) ∧
     (∀ (t : ProcState) (e g : Nat), e ≠ 0 → t.ruid ≠ 0 →
        raise_priv t e g = (-1, t, []))) :=
  ⟨rfl, by decide, rfl,
   priv_drop_raise_roundtrip wRootState rfl (by decide) rfl⟩

/-- C1: whenever the initial stat shows a file owned by a uid other than
the real uid, or carrying any group/other read/write bit, `read_proxy`
fails with -3 before performing a single read, for every lock policy under
which the lock acquisition succeeds and regardless of the file's content
(the read oracle is universally quantified). -/
theorem read_proxy_permission_rejected (env : RPEnv) (s0 : ProcState)
    (lock_type : Nat) (st1 : Stat)
    (hopen : env.openOk = true)
    (hlock : (filelock env.flockAcq env.fcntlAcq lock_type LCK_READ).1 = 0)
    (hstat : env.stats 0 = some st1)
    (hbad : badPermStat s0.ruid st1 = true) :
    (read_proxy env s0 lock_type).rc = -3 ∧
    (read_proxy env s0 lock_type).readCount = 0 ∧
    (read_proxy env s0 lock_type).proxy = none := by
  have hpd := read_proxy_pd_ok s0
  simp only [read_proxy, hpd, hopen, hstat, hbad, hlock]
  simp

/-- Witness for C1: a file owned by the right uid but group-readable
(mode bit 040) is rejected with -3 and zero reads. -/
theorem read_proxy_permission_rejected_witness :
    wEnvPerm.openOk = true ∧
    (filelock wEnvPerm.flockAcq wEnvPerm.fcntlAcq 1 LCK_READ).1 = 0 ∧
    wEnvPerm.stats 0 =
      some { st_uid := 1000, st_mode := 32, st_size := 0,
             st_mtime := 0, st_ctime := 0 } ∧
    badPermStat wState.ruid
      { st_uid := 1000, st_mode := 32, st_size := 0,
        st_mtime := 0, st_ctime := 0 } = true ∧
    ((read_proxy wEnvPerm wState 1).rc = -3 ∧
     (read_proxy wEnvPerm wState 1).readCount = 0 ∧
     (read_proxy wEnvPerm wState 1).proxy = none) :=
  ⟨rfl, by decide, rfl, by decide,
   read_proxy_permission_rejected wEnvPerm wState 1
     { st_uid := 1000, st_mode := 32, st_size := 0,
       st_mtime := 0, st_ctime := 0 }
     rfl (by decide) rfl (by decide)⟩

/-- Every exit path of `read_proxy` (the dead -2 branch apart) returns a
final state obtained by `raise_priv` from a state that kept the real and
saved ids, whose descriptor/lock flags are either untouched (paths before
the open) or cleared by the close, and whose effective ids are either the
original ones (no drop) or the drop happened with effective root. -/
theorem read_proxy_final_cases (env : RPEnv) (s0 : ProcState)
    (lock_type : Nat) :
    ∃ t : ProcState,
      (read_proxy env s0 lock_type).final =
          (raise_priv t s0.euid s0.egid).2.1 ∧
      t.ruid = s0.ruid ∧ t.svuid = s0.svuid ∧
      (t.fdOpen = s0.fdOpen ∨ t.fdOpen = false) ∧
      (t.lockHeld = s0.lockHeld ∨ t.lockHeld = false) ∧
      ((t.euid = s0.euid ∧ t.egid = s0.egid) ∨ s0.euid = 0) := by
  by_cases hdrop : s0.euid = 0 ∧ s0.ruid ≠ 0
  · obtain ⟨h0, h1⟩ := hdrop
    have hd : (if s0.euid = 0 ∧ s0.ruid ≠ 0 then priv_drop s0 s0.ruid s0.rgid
        else ((0 : Int), s0)) =
        (0, { s0 with euid := s0.ruid, egid := s0.rgid }) := by
      rw [if_pos ⟨h0, h1⟩, priv_drop_root s0 h0 h1]
    simp only [read_proxy, hd]
    repeat' split
    all_goals try exact absurd rfl (by assumption)
    all_goals refine ⟨_, rfl, rfl, rfl, ?_, ?_, ?_⟩
    all_goals first
      | exact Or.inr rfl
      | exact Or.inl rfl
      | exact Or.inr h0
  · have hd : (if s0.euid = 0 ∧ s0.ruid ≠ 0 then priv_drop s0 s0.ruid s0.rgid
        else ((0 : Int), s0)) = ((0 : Int), s0) := if_neg hdrop
    simp only [read_proxy, hd]
    repeat' split
    all_goals try exact absurd rfl (by assumption)
    all_goals refine ⟨_, rfl, rfl, rfl, ?_, ?_, ?_⟩
    all_goals first
      | exact Or.inr rfl
      | exact Or.inl rfl
      | exact Or.inl ⟨rfl, rfl⟩

/-- C3: on every exit path, `read_proxy` hands back a state with the
descriptor closed, no advisory lock held, and the effective uid and gid
equal to the initial ones — the acquired lock is released (the close
releases it even on the paths that skip the explicit unlock) and any
dropped privilege is restored before returning. -/
theorem read_proxy_finalization (env : RPEnv) (s0 : ProcState)
    (lock_type : Nat) (hsu : s0.svuid = s0.euid)
    (hfd : s0.fdOpen = false) (hlk : s0.lockHeld = false) :
    (read_proxy env s0 lock_type).final.fdOpen = false ∧
    (read_proxy env s0 lock_type).final.lockHeld = false ∧
    (read_proxy env s0 lock_type).final.euid = s0.euid ∧
    (read_proxy env s0 lock_type).final.egid = s0.egid := by
  obtain ⟨t, hfin, hru, hsv, hfo, hlh, hid⟩ :=
    read_proxy_final_cases env s0 lock_type
  have hcond : (t.euid = s0.euid ∧ t.egid = s0.egid) ∨
      (s0.euid = 0 ∧ t.svuid = 0) := by
    rcases hid with hh | h0
    · exact Or.inl hh
    · exact Or.inr ⟨h0, by rw [hsv, hsu, h0]⟩
  obtain ⟨heu, heg, _, _, _, _, hofd, holh⟩ :=
    raise_priv_restores t s0.euid s0.egid hcond
  rw [hfin]
  refine ⟨?_, ?_, heu, heg⟩
  · rw [hofd]
    rcases hfo with hh | hh
    · rw [hh, hfd]
    · exact hh
  · rw [holh]
    rcases hlh with hh | hh
    · rw [hh, hlk]
    · exact hh

/-- Witness for C3: the concrete group-readable-file run ends with the
descriptor closed, no lock held, and the identity unchanged. -/
theorem read_proxy_finalization_witness :
    wState.svuid = wState.euid ∧ wState.fdOpen = false ∧
    wState.lockHeld = false ∧
    ((read_proxy wEnvPerm wState 1).final.fdOpen = false ∧
     (read_proxy wEnvPerm wState 1).final.lockHeld = false ∧
     (read_proxy wEnvPerm wState 1).final.euid = wState.euid ∧
     (read_proxy wEnvPerm wState 1).final.egid = wState.egid) :=
  ⟨rfl, rfl, rfl, read_proxy_finalization wEnvPerm wState 1 rfl rfl rfl⟩

/-- C4: when the file's metadata differs at every re-snapshot from the
snapshot the read was based on, and every reallocation and seek succeeds
and no stat error occurs, `read_proxy` fails with -5 after exactly 10 read
attempts — never fewer. -/
theorem read_proxy_retry_exhaustion (env : RPEnv) (s0 : ProcState)
    (lock_type : Nat) (f : Nat → Stat)
    (hopen : env.openOk = true)
    (hlock : (filelock env.flockAcq env.fcntlAcq lock_type LCK_READ).1 = 0)
    (hstats : ∀ k, env.stats k = some (f k))
    (hgood : badPermStat s0.ruid (f 0) = false)
    (hmal : env.mallocOk = true)
    (hch : ∀ k, sameStat (f (k + 1)) (f k) = false)
    (hra : ∀ k, env.reallocOk k = true)
    (hsk : ∀ k, env.seekOk k = true) :
    (read_proxy env s0 lock_type).rc = -5 ∧
    (read_proxy env s0 lock_type).readCount = 10 := by
  obtain ⟨h1, h2, _⟩ := read_proxy_runs_loop env s0 lock_type (f 0)
    hopen hlock (hstats 0) hgood hmal
  obtain ⟨hl1, hl2⟩ := readLoop_exhausts env f hstats hch hra hsk tries 0
    (by decide)
  refine ⟨h1.trans hl1, ?_⟩
  rw [h2, hl2]
  rfl

/-- Witness for C4: a file whose size grows at every snapshot exhausts the
budget with exactly 10 reads. -/
theorem read_proxy_retry_exhaustion_witness :
    wEnvChanging.openOk = true ∧
    (filelock wEnvChanging.flockAcq wEnvChanging.fcntlAcq 1 LCK_READ).1
      = 0 ∧
    (∀ k, wEnvChanging.stats k = some (wStatF k)) ∧
    badPermStat wState.ruid (wStatF 0) = false ∧
    wEnvChanging.mallocOk = true ∧
    (∀ k, sameStat (wStatF (k + 1)) (wStatF k) = false) ∧
    (∀ k, wEnvChanging.reallocOk k = true) ∧
    (∀ k, wEnvChanging.seekOk k = true) ∧
    ((read_proxy wEnvChanging wState 1).rc = -5 ∧
     (read_proxy wEnvChanging wState 1).readCount = 10) :=
  ⟨rfl, by decide, fun k => rfl, by decide, rfl,
   fun k => by simp [sameStat, wStatF],
   fun k => rfl, fun k => rfl,
   read_proxy_retry_exhaustion wEnvChanging wState 1 wStatF rfl (by decide)
     (fun k => rfl) (by decide) rfl
     (fun k => by simp [sameStat, wStatF]) (fun k => rfl) (fun k => rfl)⟩

/-- C5: when the file changes exactly once — the snapshot taken after read
attempt 0 differs from the initial one, and the snapshot after read attempt
1 matches it — and that second read delivers the full new size,
`read_proxy` succeeds after exactly 2 reads and returns the content of the
second read, whose length is the size of the latest snapshot (taken right
after the most recent read), not that of the first snapshot. -/
theorem read_proxy_returns_final_content (env : RPEnv) (s0 : ProcState)
    (lock_type : Nat) (st0 stB stC : Stat)
    (hopen : env.openOk = true)
    (hlock : (filelock env.flockAcq env.fcntlAcq lock_type LCK_READ).1 = 0)
    (hstat0 : env.stats 0 = some st0)
    (hgood : badPermStat s0.ruid st0 = false)
    (hmal : env.mallocOk = true)
    (hstat1 : env.stats 1 = some stB)
    (hchanged : sameStat stB st0 = false)
    (hra : env.reallocOk 0 = true) (hsk : env.seekOk 0 = true)
    (hstat2 : env.stats 2 = some stC)
    (hstable : sameStat stC stB = true)
    (hread : (env.reads 1).length = stB.st_size) :
    (read_proxy env s0 lock_type).rc = 0 ∧
    (read_proxy env s0 lock_type).readCount = 2 ∧
    (read_proxy env s0 lock_type).proxy = some (env.reads 1) ∧
    (env.reads 1).length = stB.st_size := by
  obtain ⟨h1, h2, h3⟩ := read_proxy_runs_loop env s0 lock_type st0
    hopen hlock hstat0 hgood hmal
  have htake : (env.reads 1).take stB.st_size = env.reads 1 :=
    List.take_of_length_le (le_of_eq hread)
  have hloop : readLoop env tries 0 st0 =
      { rc := 0, size := (env.reads 1).length,
        data := env.reads 1, readCount := 2 } := by
    have ht : tries = 9 + 1 := rfl
    rw [ht, readLoop_succ_changed env 9 0 st0 stB hstat1 hchanged hra hsk,
      if_neg (by decide : ¬ (9 = 0))]
    have h9 : (9 : Nat) = 8 + 1 := rfl
    rw [h9, readLoop_succ_same env 8 1 stB stC hstat2 hstable, htake,
      if_pos hread]
  refine ⟨?_, ?_, ?_, hread⟩
  · rw [h1, hloop]
  · rw [h2, hloop]
  · rw [h3, hloop]
    simp

/-- Witness for C5: the file grows from 2 to 3 bytes during read attempt 0,
is stable afterwards, and the final content `[7, 8, 9]` is returned after
exactly 2 reads. -/
theorem read_proxy_returns_final_content_witness :
    wEnvOnce.openOk = true ∧
    (filelock wEnvOnce.flockAcq wEnvOnce.fcntlAcq 1 LCK_READ).1 = 0 ∧
    wEnvOnce.stats 0 = some { st_uid := 1000, st_mode := 0, st_size := 2,
                              st_mtime := 0, st_ctime := 0 } ∧
    badPermStat wState.ruid { st_uid := 1000, st_mode := 0, st_size := 2,
                              st_mtime := 0, st_ctime := 0 } = false ∧
    wEnvOnce.mallocOk = true ∧
    wEnvOnce.stats 1 = some { st_uid := 1000, st_mode := 0, st_size := 3,
                              st_mtime := 5, st_ctime := 5 } ∧
    sameStat { st_uid := 1000, st_mode := 0, st_size := 3,
               st_mtime := 5, st_ctime := 5 }
             { st_uid := 1000, st_mode := 0, st_size := 2,
               st_mtime := 0, st_ctime := 0 } = false ∧
    wEnvOnce.reallocOk 0 = true ∧ wEnvOnce.seekOk 0 = true ∧
    wEnvOnce.stats 2 = some { st_uid := 1000, st_mode := 0, st_size := 3,
                              st_mtime := 5, st_ctime := 5 } ∧
    sameStat { st_uid := 1000, st_mode := 0, st_size := 3,
               st_mtime := 5, st_ctime := 5 }
             { st_uid := 1000, st_mode := 0, st_size := 3,
               st_mtime := 5, st_ctime := 5 } = true ∧
    (wEnvOnce.reads 1).length =
      ({ st_uid := 1000, st_mode := 0, st_size := 3,
         st_mtime := 5, st_ctime := 5 } : Stat).st_size ∧
    ((read_proxy wEnvOnce wState 1).rc = 0 ∧
     (read_proxy wEnvOnce wState 1).readCount = 2 ∧
     (read_proxy wEnvOnce wState 1).proxy = some (wEnvOnce.reads 1) ∧
     (wEnvOnce.reads 1).length =
       ({ st_uid := 1000, st_mode := 0, st_size := 3,
          st_mtime := 5, st_ctime := 5 } : Stat).st_size) :=
  ⟨rfl, by decide, rfl, by decide, rfl, rfl, by decide, rfl, rfl, rfl,
   by decide, rfl,
   read_proxy_returns_final_content wEnvOnce wState 1
     { st_uid := 1000, st_mode := 0, st_size := 2,
       st_mtime := 0, st_ctime := 0 }
     { st_uid := 1000, st_mode := 0, st_size := 3,
       st_mtime := 5, st_ctime := 5 }
     { st_uid := 1000, st_mode := 0, st_size := 3,
       st_mtime := 5, st_ctime := 5 }
     rfl (by decide) rfl (by decide) rfl rfl (by decide) rfl rfl rfl
     (by decide) rfl⟩

end PilotSubProxy
